import Mathlib

/-!
# Verification of the TikTok download bot (`src/bott.py`)

Shallow embedding of the bot's core functions — the link classifier
`is_tiktok_url`, the fetch wrapper `download_tiktok`, the stale-file reaper
`cleanup_old_files`, and the per-request orchestrator `handle_url` — together
with theorems settling the specification claims about them.

Conventions:
* Strings are manipulated as `List Char` (mirroring Python's character
  sequences); `String` appears only at the outer interface.
* File sizes are byte counts (`ℕ`); the Python code divides by `1024 * 1024`
  in floating point, which we model exactly over `ℚ` (for integer byte counts
  the float comparisons against `0.1` and `50` agree with the exact rational
  ones, since no integer number of bytes falls between `0.1` and the nearest
  binary64 float).
* Timestamps and modification times are rationals (Python `time.time()`).
-/

namespace Bott

/-! ## Generic character-list helpers -/

/-- Python `str.lower` (ASCII range; the URLs in play are ASCII). -/
def lowerStr (s : List Char) : List Char := s.map Char.toLower

/-- Python's substring test `p in s` on strings, as a Boolean function. -/
def containsSeq (p : List Char) : List Char → Bool
  | [] => p.isEmpty
  | c :: t => p.isPrefixOf (c :: t) || containsSeq p t

/-! ## `urllib.parse` netloc extraction (Python 3.10.x semantics)

`is_tiktok_url` calls `urlparse(url.lower())` and reads `.netloc`.  We model
the steps of `urllib.parse.urlsplit` that determine `netloc`:

1. strip leading/trailing C0-control-or-space characters (codepoints ≤ 0x20);
2. remove every TAB, CR and LF;
3. split off a scheme: at the first `:`, when it is not the first character
   and everything before it is a scheme character (ASCII letter, digit,
   `+`, `-`, `.`);
4. a netloc exists only when the remainder starts with `//`: it is the run of
   characters after `//` up to the first `/`, `?` or `#`;
5. `urlsplit` raises `ValueError` on a netloc with unbalanced square brackets
   (modelled as `none`; the caller's bare `except` turns this into `False`).
-/

def isC0OrSpace (c : Char) : Bool := c.toNat ≤ 32

/-- Python `str.strip(C0-control-or-space)`. -/
def stripC0 (s : List Char) : List Char :=
  ((s.dropWhile isC0OrSpace).reverse.dropWhile isC0OrSpace).reverse

def isUnsafeUrlChar (c : Char) : Bool := c == '\t' || c == '\r' || c == '\n'

/-- Removal of the WHATWG "unsafe" bytes TAB, CR, LF from the whole URL. -/
def removeUnsafe (s : List Char) : List Char := s.filter (fun c => !isUnsafeUrlChar c)

/-- Membership in `urllib.parse.scheme_chars`. -/
def isSchemeChar (c : Char) : Bool :=
  c.isAlpha || c.isDigit || c == '+' || c == '-' || c == '.'

/-- Index of the first `:`, Python `url.find(":")` (as `Option`). -/
def findColonIdx : List Char → Option ℕ
  | [] => none
  | c :: t => if c = ':' then some 0 else (findColonIdx t).map (· + 1)

/-- Drop `scheme:` from the front when a valid scheme is present
(`urlsplit`: first `:` at a positive index, preceded only by scheme chars). -/
def afterScheme (s : List Char) : List Char :=
  match findColonIdx s with
  | none => s
  | some i =>
    if 0 < i ∧ (s.take i).all isSchemeChar then s.drop (i + 1) else s

def isNetlocDelim (c : Char) : Bool := c == '/' || c == '?' || c == '#'

/-- Model of `_splitnetloc`: the netloc is present only after a leading `//`
(`url[:2] == "//"`) and runs up to the first `/`, `?` or `#`. -/
def netlocOfRest (s : List Char) : List Char :=
  if "//".toList.isPrefixOf s then
    (s.drop 2).takeWhile (fun c => !isNetlocDelim c)
  else []

/-- Unbalanced brackets in the netloc make `urlsplit` raise `ValueError`. -/
def bracketMismatch (n : List Char) : Bool :=
  (n.contains '[' && !n.contains ']') || (n.contains ']' && !n.contains '[')

/-- The `netloc` attribute of `urlparse(url)`; `none` models the
`ValueError` raise on unbalanced brackets. -/
def urlparseNetloc (url : List Char) : Option (List Char) :=
  let u := removeUnsafe (stripC0 url)
  let rest := afterScheme u
  let n := netlocOfRest rest
  if bracketMismatch n then none else some n

/-! ## The Link Classifier: `TikTokDownloader.is_tiktok_url` -/

/-- The fixed allow-list from `is_tiktok_url` (`tiktok_domains`). -/
def tiktok_domains : List (List Char) :=
  [ "tiktok.com".toList, "www.tiktok.com".toList, "m.tiktok.com".toList,
    "vm.tiktok.com".toList, "vt.tiktok.com".toList ]

/--
Model of `TikTokDownloader.is_tiktok_url` (src/bott.py lines 61-69):

    parsed = urlparse(url.lower())
    domain = parsed.netloc.lower()
    tiktok_domains = [...]
    return any(d in domain for d in tiktok_domains)

with a bare `except: return False` around the body.  Python's `d in domain`
is a substring test, modelled by `containsSeq`.
-/
def is_tiktok_url (url : String) : Bool :=
  match urlparseNetloc (lowerStr url.toList) with
  | none => false
  | some netloc =>
    let domain := lowerStr netloc
    tiktok_domains.any (fun d => containsSeq d domain)

/-- The classifier exactly as the specification words it: the host equals,
or is a subdomain of, one of the allow-listed host names. -/
def spec_hostAllowed (host : List Char) : Bool :=
  tiktok_domains.any (fun d => host == d || List.isSuffixOf ('.' :: d) host)

/-! ## The Artifact Workspace

A workspace is the listing of the shared scratch directory (`TEMP_DIR`), in
`os.listdir` order.  Each entry carries its name, size in bytes, last
modification time, whether it is a regular file (`os.path.isfile`), and
whether an `os.remove` on it would raise (modelling filesystem errors). -/

structure FileEntry where
  name : List Char
  sizeBytes : ℕ
  mtime : ℚ
  isFile : Bool := true
  removeFails : Bool := false
deriving DecidableEq, Repr

/--
Model of `TikTokDownloader.cleanup_old_files` (src/bott.py lines 134-148): walk the
listing; remove each regular file whose age exceeds 1800 seconds.  The whole
loop sits inside one `try`, so a failing `os.remove` raises out of the loop
into the outer `except`: the failing file stays (the remove did not happen)
and no later entry is visited.  The Python function returns `None`; the
removal count is only logged.
-/
def cleanup_old_files (now : ℚ) : List FileEntry → List FileEntry
  | [] => []
  | f :: rest =>
    if f.isFile = true ∧ 1800 < now - f.mtime then
      if f.removeFails = true then f :: rest
      else cleanup_old_files now rest
    else f :: cleanup_old_files now rest

/-! ## The Fetch Process Supervisor: `TikTokDownloader.download_tiktok` -/

/-- Fuel-based little-endian base-10 digit extraction.  Structurally
recursive so that concrete instances reduce in the kernel; proved equal to
`Nat.digits 10` below. -/
def natDigitsAux : ℕ → ℕ → List ℕ
  | _, 0 => []
  | 0, _ + 1 => []
  | fuel + 1, n + 1 => ((n + 1) % 10) :: natDigitsAux fuel ((n + 1) / 10)

/-- Little-endian base-10 digits of `n` (empty for `0`). -/
def natDigits (n : ℕ) : List ℕ := natDigitsAux n n

/-- Decimal rendering of a natural number, Python `str(n)` / f-string
interpolation. -/
def natToChars (n : ℕ) : List Char :=
  if n = 0 then ['0']
  else ((natDigits n).reverse).map (fun d => Char.ofNat (48 + d))

/-- The artifact naming stem: `f"tiktok_{timestamp}"` with
`timestamp = int(time.time())` (whole seconds). -/
def outputStem (timestamp : ℕ) : List Char :=
  "tiktok_".toList ++ natToChars timestamp

/-- Environment of one `download_tiktok` call: the spawn-time second, whether
`asyncio.wait_for` timed out, the child's exit code, and the decoded error
stream (`stderr.decode()`; an empty capture becomes `"Unknown error"`). -/
structure FetchEnv where
  timestamp : ℕ
  timedOut : Bool
  returncode : ℤ
  stderr : List Char
deriving DecidableEq, Repr

/-- The `(file_path, title, file_size)` triple `download_tiktok` returns:
`file_path` is `None` or a path, `file_size` is in MB. -/
structure DlReturn where
  file_path : Option (List Char)
  title : List Char
  file_size : ℚ
deriving DecidableEq, Repr

/--
Model of `TikTokDownloader.download_tiktok` (src/bott.py lines 71-132) given the
workspace listing at the time of the `os.listdir` call:

* timeout of `process.communicate()` → `(None, "Download timeout", 0)`;
* exit code `0`: take the entries whose name starts with
  `f"tiktok_{timestamp}"`; none → `(None, "No file generated", 0)`;
  otherwise the first one: its size in MB (`bytes / (1024*1024)`) must be
  `> 0.1`, else `(None, "No file generated", 0)`;
* non-zero exit: classify `stderr` by case-insensitive substring, in the
  code's order: `"unavailable"` → `"Video unavailable"`, then `"private"` →
  `"Private video"`, then `"not found"` (case-insensitive) or `"404"`
  (case-sensitive) → `"Video not found"`, else `"Download failed"`.
-/
def errText (stderr : List Char) : List Char :=
  if stderr = [] then "Unknown error".toList else stderr

def download_tiktok (env : FetchEnv) (ws : List FileEntry) : DlReturn :=
  if env.timedOut then ⟨none, "Download timeout".toList, 0⟩
  else if env.returncode = 0 then
    match ws.filter (fun f => (outputStem env.timestamp).isPrefixOf f.name) with
    | [] => ⟨none, "No file generated".toList, 0⟩
    | f :: _ =>
      let file_size : ℚ := (f.sizeBytes : ℚ) / (1024 * 1024)
      if 1/10 < file_size then ⟨some f.name, "TikTok Video".toList, file_size⟩
      else ⟨none, "No file generated".toList, 0⟩
  else
    let error := errText env.stderr
    if containsSeq "unavailable".toList (lowerStr error) then
      ⟨none, "Video unavailable".toList, 0⟩
    else if containsSeq "private".toList (lowerStr error) then
      ⟨none, "Private video".toList, 0⟩
    else if containsSeq "not found".toList (lowerStr error)
         || containsSeq "404".toList error then
      ⟨none, "Video not found".toList, 0⟩
    else ⟨none, "Download failed".toList, 0⟩

/-! ## Child-process state for the timeout branch

`asyncio`'s `process.kill()` sends SIGKILL to the child's pid alone; it is
not `os.killpg`.  We model the running-process table as a list of processes,
each with a pid and the id of the process group it belongs to; killing a pid
removes exactly the process with that pid. -/

structure Proc where
  pid : ℕ
  pgid : ℕ
deriving DecidableEq, Repr

/-- POSIX `kill(pid, SIGKILL)`: removes exactly the process with that pid. -/
def killPid (pid : ℕ) (ps : List Proc) : List Proc :=
  ps.filter (fun p => p.pid ≠ pid)

/-- The `except asyncio.TimeoutError` branch of `download_tiktok`
(src/bott.py lines 99-101): `process.kill()` then
`return None, "Download timeout", 0`. -/
def timeoutBranch (childPid : ℕ) (ps : List Proc) : DlReturn × List Proc :=
  (⟨none, "Download timeout".toList, 0⟩, killPid childPid ps)

/-! ## Request identity and artifact naming (claim C9) -/

/-- One inbound request: an identity distinguishing it from other requests
(chat/message of the inbound update) and the whole-second reading of
`time.time()` at the start of its fetch. -/
structure FetchRequest where
  requestId : ℕ
  startSecond : ℕ
deriving DecidableEq, Repr

/-- The artifact naming stem allocated to a request
(src/bott.py lines 74-75): it depends only on the start second. -/
def requestStem (r : FetchRequest) : List Char := outputStem r.startSecond

/-! ## The Request Orchestrator: `handle_url` -/

inductive Outcome where
  | rejectedNotSupported
  | serviceUnavailable
  | delivered (title : List Char) (sizeMB : ℚ)
  | deliveryFailed
  | tooLarge (sizeMB : ℚ)
  | tooSmall
  | downloadFailed (msg : List Char)
  | handlerError
deriving DecidableEq, Repr

/-- Observable side effects of one `handle_url` run, in order: the
availability probe (`check_ytdlp`), the stale reap (`cleanup_old_files`),
the fetch process spawn, and the delivery attempt (`send_video`). -/
inductive Action where
  | probe
  | reap
  | spawn
  | send
deriving DecidableEq, Repr

/-- Environment of one `handle_url` run: the inbound text, whether `yt-dlp`
answers the probe, the clock at reap time, the fetch environment, the files
the external tool wrote into the workspace during the fetch, whether
`send_video` raises (caught by the inner `try`), and whether an unexpected
fault occurs after the download returns (e.g. `edit_message_text` raising,
caught by the outer `try`). -/
structure HandlerEnv where
  url : String
  has_ytdlp : Bool
  now : ℚ
  fetch : FetchEnv
  created : List FileEntry
  sendFails : Bool := false
  editFails : Bool := false
deriving DecidableEq, Repr

/-- Removal as in the `finally` block: `os.remove` guarded by
`os.path.exists`, with errors swallowed, so a failing remove leaves the file. -/
def removeFile (p : List Char) (ws : List FileEntry) : List FileEntry :=
  ws.filter (fun f => !(f.name == p && !f.removeFails))

structure HandlerResult where
  outcome : Outcome
  ws : List FileEntry
  actions : List Action
deriving DecidableEq, Repr

/-- The workspace listing at the time `download_tiktok` lists the directory:
after the opportunistic stale reap, plus whatever the external tool wrote. -/
def fetchListing (env : HandlerEnv) (ws : List FileEntry) : List FileEntry :=
  cleanup_old_files env.now ws ++ env.created

/-- The `(file_path, title, file_size)` triple `handle_url` receives from
`download_tiktok`. -/
def fetchResult (env : HandlerEnv) (ws : List FileEntry) : DlReturn :=
  download_tiktok env.fetch (fetchListing env ws)

/--
Model of `handle_url` (src/bott.py lines 244-336):

1. classifier `False` → reject immediately (nothing else runs);
2. probe `yt-dlp`; unavailable → stop;
3. `cleanup_old_files()`; then spawn the fetch (the external tool writes
   `env.created` into the workspace) and run `download_tiktok`;
4. if an unexpected fault fires after the download (outer `except`) the
   outcome is `handlerError` and no delivery is attempted;
5. otherwise: a returned path with `0.1 ≤ size ≤ 50` → send (inner `except`
   maps a raising send to `deliveryFailed`); `size > 50` → `tooLarge`;
   otherwise `tooSmall`; no path → `downloadFailed` with the title message;
6. `finally`: if `download_tiktok` returned a path, remove that file
   (errors swallowed).
-/
def handle_url (env : HandlerEnv) (ws : List FileEntry) : HandlerResult :=
  if is_tiktok_url env.url = false then
    ⟨.rejectedNotSupported, ws, []⟩
  else if env.has_ytdlp = false then
    ⟨.serviceUnavailable, ws, [.probe]⟩
  else
    let r := fetchResult env ws
    let sent : Bool :=
      !env.editFails && r.file_path.isSome
        && decide ((1 : ℚ)/10 ≤ r.file_size ∧ r.file_size ≤ 50)
    let outcome : Outcome :=
      if env.editFails then .handlerError
      else
        match r.file_path with
        | some _ =>
          if (1 : ℚ)/10 ≤ r.file_size ∧ r.file_size ≤ 50 then
            if env.sendFails then .deliveryFailed
            else .delivered r.title r.file_size
          else if 50 < r.file_size then .tooLarge r.file_size
          else .tooSmall
        | none => .downloadFailed r.title
    let wsFinal :=
      match r.file_path with
      | some p => removeFile p (fetchListing env ws)
      | none => fetchListing env ws
    ⟨outcome, wsFinal,
      [.probe, .reap, .spawn] ++ (if sent then [.send] else [])⟩

/-! ## Shared helper lemmas -/

/-- Correctness of the Boolean substring test against `List.IsInfix`. -/
theorem containsSeq_correct (p s : List Char) :
    containsSeq p s = true ↔ p <:+: s := by
  induction s with
  | nil =>
    simp [containsSeq, List.isEmpty_iff, List.infix_nil]
  | cons c t ih =>
    simp [containsSeq, List.infix_cons_iff, ih]

theorem findColonIdx_eq_none (s : List Char) (h : ':' ∉ s) :
    findColonIdx s = none := by
  induction s with
  | nil => rfl
  | cons c t ih =>
    have hc : ¬(c = ':') := fun e => h (e ▸ List.mem_cons_self c t)
    have ht : ':' ∉ t := fun m => h (List.mem_cons_of_mem _ m)
    simp [findColonIdx, hc, ih ht]

/-- The strict size floor in `download_tiktok` over exact rationals, as a
byte-count bound: `bytes / 2^20 > 0.1` iff `bytes ≥ 104858`
(`0.1 · 2^20 = 104857.6`). -/
theorem size_floor_lt_iff (n : ℕ) :
    ((1 : ℚ)/10 < (n : ℚ) / (1024 * 1024)) ↔ 104857 < n := by
  rw [div_lt_div_iff₀ (by norm_num) (by norm_num)]
  constructor
  · intro h
    have : (1048576 : ℚ) < n * 10 := by linarith
    have hn : (1048576 : ℕ) < n * 10 := by exact_mod_cast this
    omega
  · intro h
    have hn : (1048576 : ℕ) < n * 10 := by omega
    have : (1048576 : ℚ) < (n : ℚ) * 10 := by exact_mod_cast hn
    linarith

/-! ## Claim C1: the Link Classifier's acceptance condition -/

/--
Claim C1, counterexample: the classifier tests whether an allow-listed name
occurs as a Python substring of the host (`d in domain`), not whether the
host equals or is a subdomain of one.  The URL
`https://eviltiktok.com/video` has host `eviltiktok.com`, which is neither
an allow-listed name nor a subdomain of one, yet the classifier accepts it.
-/
theorem is_tiktok_url_accepts_foreign_host :
    is_tiktok_url "https://eviltiktok.com/video" = true ∧
    urlparseNetloc (lowerStr ("https://eviltiktok.com/video" : String).toList)
      = some "eviltiktok.com".toList ∧
    spec_hostAllowed "eviltiktok.com".toList = false :=
  ⟨by decide, by decide, by decide⟩

/--
Claim C1, amended: for every URL string, the classifier returns `true` iff
the URL parses to a host (no unbalanced brackets) and one of the allow-listed
host names occurs as a substring of the (lowercased) host.  This includes
equality and subdomains, but also unrelated hosts that merely contain an
allow-listed name; malformed and host-less URLs classify `false`, and the
classifier is a total function (the Python `except` never fires past it).
-/
theorem is_tiktok_url_iff_substring (url : String) :
    is_tiktok_url url = true ↔
      ∃ n, urlparseNetloc (lowerStr url.toList) = some n ∧
        ∃ d ∈ tiktok_domains, d <:+: lowerStr n := by
  unfold is_tiktok_url
  cases h : urlparseNetloc (lowerStr url.toList) with
  | none => simp
  | some n => simp [List.any_eq_true, containsSeq_correct]

/-- Claim C1, use of the amended theorem at a concrete accepted URL. -/
theorem is_tiktok_url_iff_substring_witness :
    ∃ n, urlparseNetloc (lowerStr ("https://www.tiktok.com/@u/video/1" : String).toList)
        = some n ∧ ∃ d ∈ tiktok_domains, d <:+: lowerStr n :=
  (is_tiktok_url_iff_substring "https://www.tiktok.com/@u/video/1").mp (by decide)

/-! ## Claim C10: scheme-less URLs classify as false -/

/--
Claim C10: any URL written without a scheme and without a leading `//`
(after `urlsplit`'s whitespace normalization) — e.g. the advertised forms
`tiktok.com/@user/video/123` and `www.tiktok.com/...` — parses to an empty
host, so the classifier returns `false`.
-/
theorem is_tiktok_url_schemeless_false (url : String)
    (h1 : ':' ∉ removeUnsafe (stripC0 (lowerStr url.toList)))
    (h2 : ¬ ("//".toList <+: removeUnsafe (stripC0 (lowerStr url.toList)))) :
    is_tiktok_url url = false := by
  have hc := findColonIdx_eq_none _ h1
  have hp : ("//".toList.isPrefixOf (removeUnsafe (stripC0 (lowerStr url.toList)))) = false := by
    rw [← Bool.not_eq_true, List.isPrefixOf_iff_prefix]
    exact h2
  simp only [is_tiktok_url, urlparseNetloc, afterScheme, netlocOfRest, hc, hp,
    Bool.false_eq_true, if_false]
  decide

/-- Claim C10, witness: both advertised scheme-less forms are rejected. -/
theorem is_tiktok_url_schemeless_false_witness :
    (':' ∉ removeUnsafe (stripC0 (lowerStr ("tiktok.com/@user/video/123" : String).toList))) ∧
    is_tiktok_url "tiktok.com/@user/video/123" = false ∧
    is_tiktok_url "www.tiktok.com/@user/video/123" = false :=
  ⟨by decide,
   is_tiktok_url_schemeless_false _ (by decide) (by decide),
   is_tiktok_url_schemeless_false _ (by decide) (by decide)⟩

/-! ## Decimal rendering: correctness and injectivity (for claim C9) -/

theorem natDigitsAux_eq (fuel n : ℕ) (h : n ≤ fuel) :
    natDigitsAux fuel n = Nat.digits 10 n := by
  induction fuel generalizing n with
  | zero =>
    have : n = 0 := Nat.le_zero.mp h
    subst this
    simp [natDigitsAux]
  | succ f ih =>
    cases n with
    | zero => simp [natDigitsAux]
    | succ m =>
      rw [natDigitsAux, Nat.digits_def' (by norm_num : (1:ℕ) < 10) (Nat.succ_pos m),
        ih ((m + 1) / 10) (by omega)]

theorem natDigits_eq (n : ℕ) : natDigits n = Nat.digits 10 n :=
  natDigitsAux_eq n n le_rfl

theorem digitChar_inj :
    ∀ a < 10, ∀ b < 10, Char.ofNat (48 + a) = Char.ofNat (48 + b) → a = b := by
  decide

theorem map_digitChar_inj (l1 l2 : List ℕ)
    (h1 : ∀ x ∈ l1, x < 10) (h2 : ∀ x ∈ l2, x < 10)
    (h : l1.map (fun d => Char.ofNat (48 + d)) = l2.map (fun d => Char.ofNat (48 + d))) :
    l1 = l2 := by
  induction l1 generalizing l2 with
  | nil => cases l2 with
    | nil => rfl
    | cons b t2 => simp at h
  | cons a t ih =>
    cases l2 with
    | nil => simp at h
    | cons b t2 =>
      simp only [List.map_cons, List.cons.injEq] at h
      have hab : a = b :=
        digitChar_inj a (h1 a (List.mem_cons_self a t)) b (h2 b (List.mem_cons_self b t2)) h.1
      have ht : t = t2 :=
        ih t2 (fun x hx => h1 x (List.mem_cons_of_mem _ hx))
          (fun x hx => h2 x (List.mem_cons_of_mem _ hx)) h.2
      rw [hab, ht]

theorem natToChars_inj {m n : ℕ} (h : natToChars m = natToChars n) : m = n := by
  unfold natToChars at h
  by_cases hm : m = 0 <;> by_cases hn : n = 0
  · omega
  · exfalso
    rw [if_pos hm, if_neg hn] at h
    have hlen : (1 : ℕ) = (Nat.digits 10 n).length := by
      have := congrArg List.length h
      simpa [natDigits_eq] using this
    obtain ⟨d, hd⟩ := List.length_eq_one.mp hlen.symm
    rw [natDigits_eq, hd] at h
    simp only [List.reverse_cons, List.reverse_nil, List.nil_append, List.map_cons,
      List.map_nil, List.cons.injEq] at h
    have hd10 : d < 10 :=
      Nat.digits_lt_base (by norm_num) (hd ▸ List.mem_cons_self d [])
    have : (0 : ℕ) = d := digitChar_inj 0 (by norm_num) d hd10 (by simpa using h.1)
    have : n = 0 := by
      have := Nat.ofDigits_digits 10 n
      rw [hd, ← this] at *
      simp [Nat.ofDigits_singleton, hd] at *
      omega
    exact hn this
  · exfalso
    rw [if_neg hm, if_pos hn] at h
    have hlen : (Nat.digits 10 m).length = 1 := by
      have := congrArg List.length h
      simpa [natDigits_eq] using this
    obtain ⟨d, hd⟩ := List.length_eq_one.mp hlen
    rw [natDigits_eq, hd] at h
    simp only [List.reverse_cons, List.reverse_nil, List.nil_append, List.map_cons,
      List.map_nil, List.cons.injEq] at h
    have hd10 : d < 10 :=
      Nat.digits_lt_base (by norm_num) (hd ▸ List.mem_cons_self d [])
    have hd0 : d = 0 := digitChar_inj d hd10 0 (by norm_num) (by simpa using h.1)
    have : m = 0 := by
      have hm' := Nat.ofDigits_digits 10 m
      rw [hd, hd0] at hm'
      simpa using hm'.symm
    exact hm this
  · rw [if_neg hm, if_neg hn, natDigits_eq, natDigits_eq] at h
    have hrev : (Nat.digits 10 m).reverse = (Nat.digits 10 n).reverse :=
      map_digitChar_inj _ _
        (fun x hx => Nat.digits_lt_base (by norm_num) (List.mem_reverse.mp hx))
        (fun x hx => Nat.digits_lt_base (by norm_num) (List.mem_reverse.mp hx)) h
    have hdig : Nat.digits 10 m = Nat.digits 10 n := by
      have := congrArg List.reverse hrev
      simpa using this
    calc m = Nat.ofDigits 10 (Nat.digits 10 m) := (Nat.ofDigits_digits 10 m).symm
    _ = Nat.ofDigits 10 (Nat.digits 10 n) := by rw [hdig]
    _ = n := Nat.ofDigits_digits 10 n

/-! ## Claim C9: uniqueness of the artifact naming stem -/

/--
Claim C9, counterexample: the artifact naming stem is
`f"tiktok_{int(time.time())}"`, so two distinct requests started within the
same wall-clock second receive the same stem and collide on output
filenames.
-/
theorem requestStem_collision :
    (⟨1, 1700000000⟩ : FetchRequest) ≠ (⟨2, 1700000000⟩ : FetchRequest) ∧
    requestStem ⟨1, 1700000000⟩ = requestStem ⟨2, 1700000000⟩ :=
  ⟨by decide, rfl⟩

/--
Claim C9, amended: the artifact naming stem depends on, and only on, the
whole second at which the fetch started: two requests receive the same stem
iff their start seconds coincide.  Requests started in different seconds
never collide, but two requests within one second (e.g. concurrent ones)
share the stem.
-/
theorem requestStem_eq_iff (r1 r2 : FetchRequest) :
    requestStem r1 = requestStem r2 ↔ r1.startSecond = r2.startSecond := by
  constructor
  · intro h
    unfold requestStem outputStem at h
    exact natToChars_inj (List.append_cancel_left h)
  · intro h
    unfold requestStem outputStem
    rw [h]

/-- Claim C9, use of the amended theorem at concrete requests. -/
theorem requestStem_eq_iff_witness :
    requestStem ⟨5, 1700000042⟩ = requestStem ⟨7, 1700000042⟩ :=
  (requestStem_eq_iff ⟨5, 1700000042⟩ ⟨7, 1700000042⟩).mpr rfl

/-! ## Characterizations of `download_tiktok` (helpers) -/

/-- On a zero exit without timeout and with no listing entry matching the
naming stem, `download_tiktok` reports no artifact. -/
theorem download_tiktok_no_match (env : FetchEnv) (ws : List FileEntry)
    (ht : env.timedOut = false) (hrc : env.returncode = 0)
    (hf : ws.filter (fun f => (outputStem env.timestamp).isPrefixOf f.name) = []) :
    download_tiktok env ws = ⟨none, "No file generated".toList, 0⟩ := by
  simp only [download_tiktok, ht, hrc, Bool.false_eq_true, if_false, if_pos, hf]

/-- On a zero exit without timeout, `download_tiktok` validates only the
first listing entry matching the naming stem, against the `0.1` MB floor. -/
theorem download_tiktok_first_match (env : FetchEnv) (ws : List FileEntry)
    (f : FileEntry) (rest : List FileEntry)
    (ht : env.timedOut = false) (hrc : env.returncode = 0)
    (hf : ws.filter (fun g => (outputStem env.timestamp).isPrefixOf g.name) = f :: rest) :
    download_tiktok env ws =
      if (1 : ℚ)/10 < (f.sizeBytes : ℚ) / (1024 * 1024) then
        ⟨some f.name, "TikTok Video".toList, (f.sizeBytes : ℚ) / (1024 * 1024)⟩
      else ⟨none, "No file generated".toList, 0⟩ := by
  simp only [download_tiktok, ht, hrc, Bool.false_eq_true, if_false, if_pos, hf]

/-- On a non-zero exit without timeout, `download_tiktok` is the
error-classification computation on the captured error text. -/
theorem download_tiktok_nonzero_exit (env : FetchEnv) (ws : List FileEntry)
    (ht : env.timedOut = false) (hrc : env.returncode ≠ 0) :
    download_tiktok env ws =
      (if containsSeq "unavailable".toList (lowerStr (errText env.stderr)) then
        ⟨none, "Video unavailable".toList, 0⟩
      else if containsSeq "private".toList (lowerStr (errText env.stderr)) then
        ⟨none, "Private video".toList, 0⟩
      else if containsSeq "not found".toList (lowerStr (errText env.stderr))
           || containsSeq "404".toList (errText env.stderr) then
        ⟨none, "Video not found".toList, 0⟩
      else ⟨none, "Download failed".toList, 0⟩) := by
  simp only [download_tiktok, ht, Bool.false_eq_true, if_false, hrc, if_neg]

/-- A returned artifact always has size strictly above the `0.1` MB floor. -/
theorem download_tiktok_floor (env : FetchEnv) (ws : List FileEntry) (p : List Char)
    (hp : (download_tiktok env ws).file_path = some p) :
    (1 : ℚ)/10 < (download_tiktok env ws).file_size := by
  by_cases ht : env.timedOut = true
  · exfalso
    simp [download_tiktok, ht] at hp
  · have ht' : env.timedOut = false := by simpa using ht
    by_cases hrc : env.returncode = 0
    · cases hf : ws.filter (fun f => (outputStem env.timestamp).isPrefixOf f.name) with
      | nil =>
        rw [download_tiktok_no_match env ws ht' hrc hf] at hp
        simp at hp
      | cons f rest =>
        rw [download_tiktok_first_match env ws f rest ht' hrc hf] at hp ⊢
        by_cases hs : (1 : ℚ)/10 < (f.sizeBytes : ℚ) / (1024 * 1024)
        · rw [if_pos hs]
          exact hs
        · exfalso
          rw [if_neg hs] at hp
          simp at hp
    · rw [download_tiktok_nonzero_exit env ws ht' hrc] at hp
      split_ifs at hp

/-! ## Claim C3: failure classification priority order -/

/--
Claim C3, counterexample: the code tests `"unavailable"` before
`"private"`, so error text containing both — e.g. `"Private video
unavailable"` — classifies as `Video unavailable`, not as the `Private`
outcome the claim's private-first priority requires.
-/
theorem download_classify_private_not_first :
    download_tiktok ⟨100, false, 1, "Private video unavailable".toList⟩ []
        = ⟨none, "Video unavailable".toList, 0⟩ ∧
    "private".toList <:+: lowerStr "Private video unavailable".toList := by
  constructor
  · rw [download_tiktok_nonzero_exit _ _ rfl (by decide),
      if_pos (by decide : containsSeq "unavailable".toList
        (lowerStr (errText "Private video unavailable".toList)) = true)]
  · decide

/--
Claim C3, amended: on a non-zero exit the classification applies
case-insensitive substring rules in the code's priority order
`unavailable`, then `private`, then `not found` or a (case-sensitive)
`404` substring, with `ProcessError` (`"Download failed"`) as the default;
an empty error capture is classified as the text `"Unknown error"`.
-/
theorem download_classification_order (env : FetchEnv) (ws : List FileEntry)
    (ht : env.timedOut = false) (hrc : env.returncode ≠ 0) :
    ("unavailable".toList <:+: lowerStr (errText env.stderr) →
        download_tiktok env ws = ⟨none, "Video unavailable".toList, 0⟩) ∧
    (¬ "unavailable".toList <:+: lowerStr (errText env.stderr) →
      "private".toList <:+: lowerStr (errText env.stderr) →
        download_tiktok env ws = ⟨none, "Private video".toList, 0⟩) ∧
    (¬ "unavailable".toList <:+: lowerStr (errText env.stderr) →
      ¬ "private".toList <:+: lowerStr (errText env.stderr) →
      ("not found".toList <:+: lowerStr (errText env.stderr) ∨
        "404".toList <:+: errText env.stderr) →
        download_tiktok env ws = ⟨none, "Video not found".toList, 0⟩) ∧
    (¬ "unavailable".toList <:+: lowerStr (errText env.stderr) →
      ¬ "private".toList <:+: lowerStr (errText env.stderr) →
      ¬ "not found".toList <:+: lowerStr (errText env.stderr) →
      ¬ "404".toList <:+: errText env.stderr →
        download_tiktok env ws = ⟨none, "Download failed".toList, 0⟩) := by
  rw [download_tiktok_nonzero_exit env ws ht hrc]
  refine ⟨fun h1 => ?_, fun h1 h2 => ?_, fun h1 h2 h3 => ?_, fun h1 h2 h3 h4 => ?_⟩
  · rw [if_pos ((containsSeq_correct _ _).mpr h1)]
  · have b1 : containsSeq "unavailable".toList (lowerStr (errText env.stderr)) = false := by
      rw [← Bool.not_eq_true, containsSeq_correct]
      exact h1
    rw [b1, if_neg (by simp), if_pos ((containsSeq_correct _ _).mpr h2)]
  · have b1 : containsSeq "unavailable".toList (lowerStr (errText env.stderr)) = false := by
      rw [← Bool.not_eq_true, containsSeq_correct]
      exact h1
    have b2 : containsSeq "private".toList (lowerStr (errText env.stderr)) = false := by
      rw [← Bool.not_eq_true, containsSeq_correct]
      exact h2
    have b3 : (containsSeq "not found".toList (lowerStr (errText env.stderr))
        || containsSeq "404".toList (errText env.stderr)) = true := by
      rcases h3 with h3 | h3
      · rw [(containsSeq_correct _ _).mpr h3]
        rfl
      · rw [(containsSeq_correct _ _).mpr h3, Bool.or_true]
    rw [b1, if_neg (by simp), b2, if_neg (by simp), if_pos b3]
  · have b1 : containsSeq "unavailable".toList (lowerStr (errText env.stderr)) = false := by
      rw [← Bool.not_eq_true, containsSeq_correct]
      exact h1
    have b2 : containsSeq "private".toList (lowerStr (errText env.stderr)) = false := by
      rw [← Bool.not_eq_true, containsSeq_correct]
      exact h2
    have b3 : containsSeq "not found".toList (lowerStr (errText env.stderr)) = false := by
      rw [← Bool.not_eq_true, containsSeq_correct]
      exact h3
    have b4 : containsSeq "404".toList (errText env.stderr) = false := by
      rw [← Bool.not_eq_true, containsSeq_correct]
      exact h4
    rw [b1, if_neg (by simp), b2, if_neg (by simp), b3, b4, if_neg (by simp)]

/-- Claim C3, use of the amended theorem: the spec scenario, error text
exactly `"Private video"`, classifies as the `Private` outcome. -/
theorem download_classification_order_witness :
    download_tiktok ⟨100, false, 1, "Private video".toList⟩ []
      = ⟨none, "Private video".toList, 0⟩ :=
  (download_classification_order ⟨100, false, 1, "Private video".toList⟩ []
    rfl (by decide)).2.1 (by decide) (by decide)

/-! ## Claim C5: artifact discovery and the size floor -/

/--
Claim C5, counterexample: the size floor actually enforced is
`0.1 · 2^20 = 104857.6` bytes, not 100 KB: a matching file of 104000 bytes
exceeds 100 KB (102400 bytes) yet the fetch reports `"No file generated"`
(`NoArtifactProduced`) instead of `Success`.
-/
theorem download_rejects_file_above_100KB :
    (100 * 1024 : ℕ) < 104000 ∧
    download_tiktok ⟨77, false, 0, []⟩
        [⟨"tiktok_77.mp4".toList, 104000, 0, true, false⟩]
      = ⟨none, "No file generated".toList, 0⟩ := by
  refine ⟨by norm_num, ?_⟩
  rw [download_tiktok_first_match ⟨77, false, 0, []⟩
      [⟨"tiktok_77.mp4".toList, 104000, 0, true, false⟩]
      ⟨"tiktok_77.mp4".toList, 104000, 0, true, false⟩ [] rfl rfl rfl]
  rw [if_neg]
  rw [size_floor_lt_iff]
  decide

/--
Claim C5, amended: on a zero exit, if no listing entry matches the
request's naming stem the outcome is `NoArtifactProduced`
(`"No file generated"`); otherwise only the first match is considered: the
outcome is `Success` with a descriptor for that file iff its size exceeds
104857 bytes (the `0.1` MB floor, ≈ 102.4 KB — not 100 KB), and
`NoArtifactProduced` otherwise.
-/
theorem download_artifact_discovery (env : FetchEnv) (ws : List FileEntry)
    (ht : env.timedOut = false) (hrc : env.returncode = 0) :
    (ws.filter (fun f => (outputStem env.timestamp).isPrefixOf f.name) = [] →
      download_tiktok env ws = ⟨none, "No file generated".toList, 0⟩) ∧
    (∀ f rest,
      ws.filter (fun g => (outputStem env.timestamp).isPrefixOf g.name) = f :: rest →
      (f.sizeBytes ≤ 104857 →
        download_tiktok env ws = ⟨none, "No file generated".toList, 0⟩) ∧
      (104857 < f.sizeBytes →
        download_tiktok env ws
          = ⟨some f.name, "TikTok Video".toList, (f.sizeBytes : ℚ) / (1024 * 1024)⟩)) := by
  constructor
  · intro h
    exact download_tiktok_no_match env ws ht hrc h
  · intro f rest h
    rw [download_tiktok_first_match env ws f rest ht hrc h]
    constructor
    · intro hsize
      rw [if_neg]
      rw [size_floor_lt_iff]
      omega
    · intro hsize
      rw [if_pos]
      rw [size_floor_lt_iff]
      exact hsize

/-- Claim C5, use of the amended theorem: a 5000000-byte first match at
stem `tiktok_77` yields a `Success` descriptor for that file. -/
theorem download_artifact_discovery_witness :
    download_tiktok ⟨77, false, 0, []⟩
        [⟨"tiktok_77.mp4".toList, 5000000, 0, true, false⟩]
      = ⟨some "tiktok_77.mp4".toList, "TikTok Video".toList,
          (5000000 : ℚ) / (1024 * 1024)⟩ :=
  ((download_artifact_discovery ⟨77, false, 0, []⟩
      [⟨"tiktok_77.mp4".toList, 5000000, 0, true, false⟩] rfl rfl).2
    ⟨"tiktok_77.mp4".toList, 5000000, 0, true, false⟩ [] rfl).2 (by decide)

/-! ## Claim C6: the timeout branch and the child process tree -/

/--
Claim C6, counterexample: on deadline expiry the code calls
`process.kill()`, which signals only the child's own pid — not its process
group.  In a process table where the child (pid 10, leading group 10) has
spawned a helper (pid 11 in group 10), the helper survives the timeout
handling, so a process of the child's group remains running.
-/
theorem timeout_leaves_group_member :
    (timeoutBranch 10 [⟨10, 10⟩, ⟨11, 10⟩]).2 = [⟨11, 10⟩] ∧
    (⟨11, 10⟩ : Proc).pgid = 10 ∧
    (timeoutBranch 10 [⟨10, 10⟩, ⟨11, 10⟩]).1
      = ⟨none, "Download timeout".toList, 0⟩ :=
  ⟨rfl, rfl, rfl⟩

/--
Claim C6, amended: on deadline expiry the fetch returns the `Timeout`
failure (`"Download timeout"`) and the child process itself is killed — no
process with the child's pid remains — but no other process is signalled:
every other running process, including members of the child's process
group, survives.
-/
theorem timeoutBranch_kills_child_only (childPid : ℕ) (ps : List Proc) :
    (timeoutBranch childPid ps).1 = ⟨none, "Download timeout".toList, 0⟩ ∧
    (∀ p ∈ (timeoutBranch childPid ps).2, p.pid ≠ childPid) ∧
    (∀ p ∈ ps, p.pid ≠ childPid → p ∈ (timeoutBranch childPid ps).2) := by
  refine ⟨rfl, ?_, ?_⟩
  · intro p hp
    simp only [timeoutBranch, killPid, List.mem_filter] at hp
    simpa using hp.2
  · intro p hp hne
    simp only [timeoutBranch, killPid, List.mem_filter]
    exact ⟨hp, by simpa using hne⟩

/-- Claim C6, use of the amended theorem at the concrete process table. -/
theorem timeoutBranch_kills_child_only_witness :
    (timeoutBranch 10 [⟨10, 10⟩, ⟨11, 10⟩]).1 = ⟨none, "Download timeout".toList, 0⟩ ∧
    (⟨11, 10⟩ : Proc) ∈ (timeoutBranch 10 [⟨10, 10⟩, ⟨11, 10⟩]).2 :=
  ⟨(timeoutBranch_kills_child_only 10 [⟨10, 10⟩, ⟨11, 10⟩]).1,
   (timeoutBranch_kills_child_only 10 [⟨10, 10⟩, ⟨11, 10⟩]).2.2
     ⟨11, 10⟩ (by decide) (by decide)⟩

/-! ## Claim C7: the stale-file reaper -/

/--
Claim C7, counterexample: the whole removal loop sits inside a single
`try`, so a failure removing one file aborts the rest of the sweep.  With
two stale files where removing the first fails, the second — eligible, and
removable — is left in place, contradicting the claim that every eligible
file is removed and failures are merely skipped.  (The count is also only
logged, not returned: the Python function returns `None`.)
-/
theorem cleanup_abort_on_failure :
    cleanup_old_files 2000
        [⟨"a".toList, 1, 0, true, true⟩, ⟨"b".toList, 1, 0, true, false⟩]
      = [⟨"a".toList, 1, 0, true, true⟩, ⟨"b".toList, 1, 0, true, false⟩] ∧
    (⟨"b".toList, 1, 0, true, false⟩ : FileEntry).isFile = true ∧
    (1800 : ℚ) < 2000 - (⟨"b".toList, 1, 0, true, false⟩ : FileEntry).mtime := by
  refine ⟨?_, rfl, by norm_num⟩
  rw [cleanup_old_files]
  rw [if_pos ⟨rfl, by norm_num⟩, if_pos rfl]

/--
Claim C7, amended: the reaper never removes directories or files at most
1800 seconds old; it removes nothing that was not in the listing (the
result is a sublist); and when no individual removal fails it removes
exactly the regular files strictly older than 1800 seconds.  When a
removal fails, however, the failure aborts the remaining sweep (the
exception is caught outside the loop), and the removal count is logged,
not returned.
-/
theorem cleanup_old_files_spec (now : ℚ) :
    (∀ fs : List FileEntry, (∀ f ∈ fs, f.removeFails = false) →
      cleanup_old_files now fs
        = fs.filter (fun f => !(f.isFile && decide (1800 < now - f.mtime)))) ∧
    (∀ fs : List FileEntry, ∀ f ∈ fs,
      f.isFile = false ∨ now - f.mtime ≤ 1800 → f ∈ cleanup_old_files now fs) ∧
    (∀ fs : List FileEntry, List.Sublist (cleanup_old_files now fs) fs) := by
  refine ⟨?_, ?_, ?_⟩
  · intro fs h
    induction fs with
    | nil => rfl
    | cons f t ih =>
      have hf : f.removeFails = false := h f (List.mem_cons_self f t)
      have ht : ∀ g ∈ t, g.removeFails = false :=
        fun g hg => h g (List.mem_cons_of_mem _ hg)
      by_cases he : f.isFile = true ∧ 1800 < now - f.mtime
      · rw [cleanup_old_files, if_pos he, if_neg (by simp [hf]), ih ht,
          List.filter_cons_of_neg (by simp [he.1, he.2])]
      · rw [cleanup_old_files, if_neg he, ih ht,
          List.filter_cons_of_pos]
        by_cases hfile : f.isFile = true
        · by_cases hlt : (1800 : ℚ) < now - f.mtime
          · exact absurd ⟨hfile, hlt⟩ he
          · simp [hfile, hlt]
        · rw [Bool.not_eq_true] at hfile
          simp [hfile]
  · intro fs f hf hcond
    induction fs with
    | nil => cases hf
    | cons a t ih =>
      rcases List.mem_cons.mp hf with rfl | hmem
      · rw [cleanup_old_files]
        by_cases he : f.isFile = true ∧ 1800 < now - f.mtime
        · exfalso
          rcases hcond with hc | hc
          · rw [he.1] at hc
            cases hc
          · exact absurd he.2 (not_lt.mpr hc)
        · rw [if_neg he]
          exact List.mem_cons_self f _
      · rw [cleanup_old_files]
        by_cases he : a.isFile = true ∧ 1800 < now - a.mtime
        · rw [if_pos he]
          by_cases hr : a.removeFails = true
          · rw [if_pos hr]
            exact List.mem_cons_of_mem _ hmem
          · rw [if_neg hr]
            exact ih hmem
        · rw [if_neg he]
          exact List.mem_cons_of_mem _ (ih hmem)
  · intro fs
    induction fs with
    | nil => exact List.Sublist.refl []
    | cons f t ih =>
      rw [cleanup_old_files]
      by_cases he : f.isFile = true ∧ 1800 < now - f.mtime
      · rw [if_pos he]
        by_cases hr : f.removeFails = true
        · rw [if_pos hr]
        · rw [if_neg hr]
          exact ih.cons f
      · rw [if_neg he]
        exact ih.cons₂ f

/-- Claim C7, use of the amended theorem: in a failure-free listing the
stale file is removed, the fresh file and the directory survive. -/
theorem cleanup_old_files_spec_witness :
    cleanup_old_files 2000
        [⟨"old".toList, 1, 0, true, false⟩, ⟨"new".toList, 1, 500, true, false⟩,
          ⟨"dir".toList, 1, 0, false, false⟩]
      = [⟨"new".toList, 1, 500, true, false⟩, ⟨"dir".toList, 1, 0, false, false⟩] ∧
    (⟨"dir".toList, 1, 0, false, false⟩ : FileEntry)
      ∈ cleanup_old_files 2000
        [⟨"old".toList, 1, 0, true, false⟩, ⟨"new".toList, 1, 500, true, false⟩,
          ⟨"dir".toList, 1, 0, false, false⟩] := by
  constructor
  · rw [(cleanup_old_files_spec 2000).1 _ (by intro f hf; fin_cases hf <;> rfl)]
    simp only [List.filter]
    norm_num
  · exact (cleanup_old_files_spec 2000).2.1 _ _ (by simp) (Or.inl rfl)

/-! ## Claim C8: early rejection performs nothing -/

/--
Claim C8: when the Link Classifier rejects the inbound URL, `handle_url`
terminates immediately with `rejectedNotSupported`: no availability probe,
no stale-file reap, no fetch process, no delivery attempt, and the
workspace listing is returned unchanged.
-/
theorem handle_url_rejected (env : HandlerEnv) (ws : List FileEntry)
    (h : is_tiktok_url env.url = false) :
    handle_url env ws = ⟨.rejectedNotSupported, ws, []⟩ := by
  simp [handle_url, h]

/-- Claim C8, witness: the spec's scenario input `https://example.com/video`. -/
theorem handle_url_rejected_witness :
    is_tiktok_url "https://example.com/video" = false ∧
    handle_url ⟨"https://example.com/video", true, 0, ⟨1, false, 0, []⟩, [], false, false⟩
        [⟨"x".toList, 1, 0, true, false⟩]
      = ⟨.rejectedNotSupported, [⟨"x".toList, 1, 0, true, false⟩], []⟩ :=
  ⟨by decide,
   handle_url_rejected
     ⟨"https://example.com/video", true, 0, ⟨1, false, 0, []⟩, [], false, false⟩
     [⟨"x".toList, 1, 0, true, false⟩] (by decide)⟩

/-! ## Characterizations of `handle_url` past the guards (helpers) -/

/-- A successful fetch seen through `fetchResult` is above the size floor. -/
theorem fetchResult_floor (env : HandlerEnv) (ws : List FileEntry) (p : List Char)
    (hp : (fetchResult env ws).file_path = some p) :
    (1 : ℚ)/10 < (fetchResult env ws).file_size :=
  download_tiktok_floor env.fetch (fetchListing env ws) p hp

/-- Shape of a `handle_url` run whose fetch returned no path. -/
theorem handle_url_of_none (env : HandlerEnv) (ws : List FileEntry)
    (h1 : is_tiktok_url env.url = true) (h2 : env.has_ytdlp = true)
    (hp : (fetchResult env ws).file_path = none) :
    handle_url env ws =
      ⟨if env.editFails then Outcome.handlerError
        else Outcome.downloadFailed (fetchResult env ws).title,
       fetchListing env ws, [.probe, .reap, .spawn]⟩ := by
  simp [handle_url, h1, h2, hp]

/-- Shape of a `handle_url` run whose fetch returned a path. -/
theorem handle_url_of_some (env : HandlerEnv) (ws : List FileEntry) (p : List Char)
    (h1 : is_tiktok_url env.url = true) (h2 : env.has_ytdlp = true)
    (hp : (fetchResult env ws).file_path = some p) :
    handle_url env ws =
      ⟨if env.editFails then Outcome.handlerError
        else if (1 : ℚ)/10 ≤ (fetchResult env ws).file_size ∧
            (fetchResult env ws).file_size ≤ 50 then
          (if env.sendFails then Outcome.deliveryFailed
            else Outcome.delivered (fetchResult env ws).title (fetchResult env ws).file_size)
        else if 50 < (fetchResult env ws).file_size then
          Outcome.tooLarge (fetchResult env ws).file_size
        else Outcome.tooSmall,
       removeFile p (fetchListing env ws),
       [.probe, .reap, .spawn] ++
         (if !env.editFails && decide ((1 : ℚ)/10 ≤ (fetchResult env ws).file_size ∧
             (fetchResult env ws).file_size ≤ 50) then [.send] else [])⟩ := by
  simp [handle_url, h1, h2, hp]

/-! ## Claim C2: guaranteed cleanup of produced artifacts -/

/--
Claim C2, counterexample: a fetch that creates a file below the `0.1` MB
floor returns no path (`NoArtifactProduced`), so the `finally` cleanup —
which only removes the returned `file_path` — leaves the created artifact
in the workspace after the request terminates.
-/
theorem handle_url_leaves_subfloor_artifact :
    handle_url
        ⟨"https://vm.tiktok.com/ZMabc123/", true, 0, ⟨100, false, 0, []⟩,
          [⟨"tiktok_100.mp4".toList, 50000, 0, true, false⟩], false, false⟩ []
      = ⟨.downloadFailed "No file generated".toList,
          [⟨"tiktok_100.mp4".toList, 50000, 0, true, false⟩],
          [.probe, .reap, .spawn]⟩ := by
  have hr : fetchResult
      ⟨"https://vm.tiktok.com/ZMabc123/", true, 0, ⟨100, false, 0, []⟩,
        [⟨"tiktok_100.mp4".toList, 50000, 0, true, false⟩], false, false⟩ []
      = ⟨none, "No file generated".toList, 0⟩ := by
    show download_tiktok (⟨100, false, 0, []⟩ : FetchEnv)
      ([⟨"tiktok_100.mp4".toList, 50000, 0, true, false⟩] : List FileEntry) = _
    rw [download_tiktok_first_match (⟨100, false, 0, []⟩ : FetchEnv)
        [⟨"tiktok_100.mp4".toList, 50000, 0, true, false⟩]
        ⟨"tiktok_100.mp4".toList, 50000, 0, true, false⟩ [] rfl rfl rfl, if_neg]
    rw [size_floor_lt_iff]
    decide
  rw [handle_url_of_none _ _ (by decide) rfl (by rw [hr]), hr]
  rfl

/--
Claim C2, amended: on every terminal outcome past the guards — delivery
success, delivery failure, too-large, and the unexpected-fault path — the
file named by a returned artifact descriptor is absent from the workspace
afterwards, provided removing it does not itself fail.  Files created
during the fetch but not returned as the descriptor (sub-floor artifacts,
timeout leftovers) are not removed by the request; they persist until the
stale reaper's retention window expires.
-/
theorem handle_url_removes_returned_artifact (env : HandlerEnv) (ws : List FileEntry)
    (p : List Char)
    (h1 : is_tiktok_url env.url = true) (h2 : env.has_ytdlp = true)
    (hp : (fetchResult env ws).file_path = some p)
    (hok : ∀ f ∈ fetchListing env ws, f.name = p → f.removeFails = false) :
    ∀ f ∈ (handle_url env ws).ws, f.name ≠ p := by
  rw [handle_url_of_some env ws p h1 h2 hp]
  intro f hf hname
  simp only [removeFile, List.mem_filter] at hf
  have hrem : f.removeFails = false := hok f hf.1 hname
  rw [hname, hrem] at hf
  simp at hf

/-- Claim C2, use of the amended theorem: a delivered 5 MB artifact is
absent from the final workspace. -/
theorem handle_url_removes_returned_artifact_witness :
    ((handle_url
        ⟨"https://vm.tiktok.com/ZMabc123/", true, 0, ⟨100, false, 0, []⟩,
          [⟨"tiktok_100.mp4".toList, 5242880, 0, true, false⟩], false, false⟩ []).ws.all
      (fun f => f.name ≠ "tiktok_100.mp4".toList)) = true := by
  have hr : fetchResult
      ⟨"https://vm.tiktok.com/ZMabc123/", true, 0, ⟨100, false, 0, []⟩,
        [⟨"tiktok_100.mp4".toList, 5242880, 0, true, false⟩], false, false⟩ []
      = ⟨some "tiktok_100.mp4".toList, "TikTok Video".toList,
          ((5242880 : ℕ) : ℚ) / (1024 * 1024)⟩ := by
    show download_tiktok (⟨100, false, 0, []⟩ : FetchEnv)
      ([⟨"tiktok_100.mp4".toList, 5242880, 0, true, false⟩] : List FileEntry) = _
    rw [download_tiktok_first_match (⟨100, false, 0, []⟩ : FetchEnv)
        [⟨"tiktok_100.mp4".toList, 5242880, 0, true, false⟩]
        ⟨"tiktok_100.mp4".toList, 5242880, 0, true, false⟩ [] rfl rfl rfl, if_pos]
    rw [size_floor_lt_iff]
    decide
  rw [List.all_eq_true]
  intro f hf
  simpa using
    handle_url_removes_returned_artifact
      ⟨"https://vm.tiktok.com/ZMabc123/", true, 0, ⟨100, false, 0, []⟩,
        [⟨"tiktok_100.mp4".toList, 5242880, 0, true, false⟩], false, false⟩ []
      "tiktok_100.mp4".toList (by decide) rfl
      (by rw [hr])
      (by
        intro g hg hname
        have hg' : g = ⟨"tiktok_100.mp4".toList, 5242880, 0, true, false⟩ := by
          simpa [fetchListing, cleanup_old_files] using hg
        rw [hg'])
      f hf

/-! ## Claim C4: the effective size policy -/

/--
Claim C4, counterexample: a fetch producing a file below the `0.1` MB floor
does not terminate as `TooSmall`: the fetch itself withholds the path
(`"No file generated"`, i.e. `NoArtifactProduced`), so the request ends as
`DownloadFailed` and the orchestrator's `TooSmall` branch is never taken.
-/
theorem handle_url_subfloor_not_tooSmall :
    (handle_url
        ⟨"https://vt.tiktok.com/xyz/", true, 0, ⟨200, false, 0, []⟩,
          [⟨"tiktok_200.mp4".toList, 90000, 0, true, false⟩], false, false⟩ []).outcome
      = .downloadFailed "No file generated".toList ∧
    (handle_url
        ⟨"https://vt.tiktok.com/xyz/", true, 0, ⟨200, false, 0, []⟩,
          [⟨"tiktok_200.mp4".toList, 90000, 0, true, false⟩], false, false⟩ []).outcome
      ≠ .tooSmall := by
  have hr : fetchResult
      ⟨"https://vt.tiktok.com/xyz/", true, 0, ⟨200, false, 0, []⟩,
        [⟨"tiktok_200.mp4".toList, 90000, 0, true, false⟩], false, false⟩ []
      = ⟨none, "No file generated".toList, 0⟩ := by
    show download_tiktok (⟨200, false, 0, []⟩ : FetchEnv)
      ([⟨"tiktok_200.mp4".toList, 90000, 0, true, false⟩] : List FileEntry) = _
    rw [download_tiktok_first_match (⟨200, false, 0, []⟩ : FetchEnv)
        [⟨"tiktok_200.mp4".toList, 90000, 0, true, false⟩]
        ⟨"tiktok_200.mp4".toList, 90000, 0, true, false⟩ [] rfl rfl rfl, if_neg]
    rw [size_floor_lt_iff]
    decide
  have houtcome : (handle_url
      ⟨"https://vt.tiktok.com/xyz/", true, 0, ⟨200, false, 0, []⟩,
        [⟨"tiktok_200.mp4".toList, 90000, 0, true, false⟩], false, false⟩ []).outcome
      = .downloadFailed "No file generated".toList := by
    rw [handle_url_of_none _ _ (by decide) rfl (by rw [hr]), hr]
    rfl
  refine ⟨houtcome, ?_⟩
  rw [houtcome]
  simp

/--
Claim C4, amended: the `TooSmall` outcome is unreachable (for the integer
byte counts the filesystem reports, the fetch's strict `> 0.1` MB floor
makes the orchestrator's inclusive `0.1 ≤ size` re-check redundant): any
returned artifact exceeds the floor, and — when no fault or send failure
intervenes — it is delivered iff its size is at most 50 MB (the 50 MB
boundary included) and rejected as `TooLarge(size)` iff the size exceeds
50 MB.  A file at or below the floor instead surfaces as the fetch failure
`NoArtifactProduced`, never as `TooSmall`.
-/
theorem handle_url_size_policy :
    (∀ (env : HandlerEnv) (ws : List FileEntry),
      (handle_url env ws).outcome ≠ Outcome.tooSmall) ∧
    (∀ (env : HandlerEnv) (ws : List FileEntry) (p : List Char),
      is_tiktok_url env.url = true → env.has_ytdlp = true →
      env.editFails = false → env.sendFails = false →
      (fetchResult env ws).file_path = some p →
      ((fetchResult env ws).file_size ≤ 50 →
        (handle_url env ws).outcome
          = Outcome.delivered (fetchResult env ws).title (fetchResult env ws).file_size) ∧
      (50 < (fetchResult env ws).file_size →
        (handle_url env ws).outcome = Outcome.tooLarge (fetchResult env ws).file_size)) := by
  constructor
  · intro env ws
    by_cases h1 : is_tiktok_url env.url = false
    · simp [handle_url, h1]
    · have h1' : is_tiktok_url env.url = true := by simpa using h1
      by_cases h2 : env.has_ytdlp = false
      · simp [handle_url, h1', h2]
      · have h2' : env.has_ytdlp = true := by simpa using h2
        cases hp : (fetchResult env ws).file_path with
        | none =>
          rw [handle_url_of_none env ws h1' h2' hp]
          by_cases h3 : env.editFails = true
          · rw [if_pos h3]
            simp
          · rw [if_neg h3]
            simp
        | some p =>
          have hfloor := fetchResult_floor env ws p hp
          rw [handle_url_of_some env ws p h1' h2' hp]
          show (if env.editFails then Outcome.handlerError else _) ≠ Outcome.tooSmall
          by_cases h3 : env.editFails = true
          · rw [if_pos h3]
            simp
          · rw [if_neg h3]
            by_cases h4 : (1 : ℚ)/10 ≤ (fetchResult env ws).file_size ∧
                (fetchResult env ws).file_size ≤ 50
            · rw [if_pos h4]
              by_cases h5 : env.sendFails = true
              · rw [if_pos h5]
                simp
              · rw [if_neg h5]
                simp
            · rw [if_neg h4]
              have h6 : 50 < (fetchResult env ws).file_size := by
                rcases not_and_or.mp h4 with h | h
                · exact absurd (le_of_lt hfloor) h
                · exact not_le.mp h
              rw [if_pos h6]
              simp
  · intro env ws p h1 h2 h3 h4 hp
    have hfloor := fetchResult_floor env ws p hp
    rw [handle_url_of_some env ws p h1 h2 hp]
    constructor
    · intro hle
      show (if env.editFails then Outcome.handlerError else _) = _
      rw [if_neg (by rw [h3]; exact Bool.false_ne_true),
        if_pos ⟨le_of_lt hfloor, hle⟩, if_neg (by rw [h4]; exact Bool.false_ne_true)]
    · intro hgt
      show (if env.editFails then Outcome.handlerError else _) = _
      rw [if_neg (by rw [h3]; exact Bool.false_ne_true),
        if_neg (fun hc => absurd hgt (not_lt.mpr hc.2)), if_pos hgt]

/-- Claim C4, use of the amended theorem: a 52428800-byte artifact —
exactly 50 MB — is delivered (the 50 MB boundary is inclusive). -/
theorem handle_url_size_policy_witness :
    (handle_url
        ⟨"https://vt.tiktok.com/boundary/", true, 0, ⟨300, false, 0, []⟩,
          [⟨"tiktok_300.mp4".toList, 52428800, 0, true, false⟩], false, false⟩ []).outcome
      = Outcome.delivered "TikTok Video".toList 50 := by
  have hr : fetchResult
      ⟨"https://vt.tiktok.com/boundary/", true, 0, ⟨300, false, 0, []⟩,
        [⟨"tiktok_300.mp4".toList, 52428800, 0, true, false⟩], false, false⟩ []
      = ⟨some "tiktok_300.mp4".toList, "TikTok Video".toList,
          ((52428800 : ℕ) : ℚ) / (1024 * 1024)⟩ := by
    show download_tiktok (⟨300, false, 0, []⟩ : FetchEnv)
      ([⟨"tiktok_300.mp4".toList, 52428800, 0, true, false⟩] : List FileEntry) = _
    rw [download_tiktok_first_match (⟨300, false, 0, []⟩ : FetchEnv)
        [⟨"tiktok_300.mp4".toList, 52428800, 0, true, false⟩]
        ⟨"tiktok_300.mp4".toList, 52428800, 0, true, false⟩ [] rfl rfl rfl, if_pos]
    rw [size_floor_lt_iff]
    decide
  have h := (handle_url_size_policy.2
      ⟨"https://vt.tiktok.com/boundary/", true, 0, ⟨300, false, 0, []⟩,
        [⟨"tiktok_300.mp4".toList, 52428800, 0, true, false⟩], false, false⟩ []
      "tiktok_300.mp4".toList (by decide) rfl rfl rfl (by rw [hr])).1
    (by rw [hr]; norm_num)
  rw [hr] at h
  rw [h]
  norm_num

end Bott
